import Mathlib

/-!
Shallow embedding of the ceph-csi CephFS controller server and its supporting
components (identifier codec, lock registry, reservation journal interactions),
together with proofs of the specification claims about them.

Sources embedded:
- the volume/snapshot handle codec (layout from the design document and §6 of
  the specification; the Go implementation itself is not part of this tree);
- internal/cephfs controller server operations (CreateVolume, DeleteVolume,
  CreateSnapshot, DeleteSnapshot, ControllerExpandVolume,
  ValidateVolumeCapabilities);
- internal/cephfs/clone.go createCloneFromSubvolume.

External collaborators (ceph calls, journal writes, credentials) are modelled
as oracle environments recording their outcomes; each operation returns its
gRPC-level result together with the trace of collaborator calls it performed
and the final state of the in-process lock registry.
-/

namespace CephCSI

/-! ## Identifier codec

Modelled from the spec: the Go codec (ComposeCSIID / DecomposeCSIID in
internal/util) is not under src/; the layout is fixed by §6 of the spec and the
design document:
`<version:4 hex>-<len(clusterID):4 hex>-<clusterID>-<poolID:16 hex>-<objectUUID:36 bytes>`
with fixed overhead 64 bytes plus the clusterID length. -/

/-- Lowercase hex digit for a value below 16. -/
def hexChar (n : Nat) : Char :=
  if n < 10 then Char.ofNat (48 + n) else Char.ofNat (87 + n)

/-- Value of a lowercase hex digit character. -/
def hexCharVal (c : Char) : Option Nat :=
  if 48 ≤ c.toNat ∧ c.toNat ≤ 57 then some (c.toNat - 48)
  else if 97 ≤ c.toNat ∧ c.toNat ≤ 102 then some (c.toNat - 87)
  else none

/-- Fixed-width big-endian lowercase hex rendering of a natural number. -/
def toHex (n : Nat) : Nat → List Char
  | 0 => []
  | k + 1 => hexChar (n / 16 ^ k % 16) :: toHex n k

/-- Accumulating hex parser over a list of characters. -/
def parseHexAux : Nat → List Char → Option Nat
  | acc, [] => some acc
  | acc, c :: cs =>
    match hexCharVal c with
    | none => none
    | some v => parseHexAux (16 * acc + v) cs

/-- Parse a whole character list as big-endian lowercase hex. -/
def parseHex (cs : List Char) : Option Nat := parseHexAux 0 cs

/-- Supported encoding version of the handle format (csi_id_version = 1). -/
def supportedVersion : Nat := 1

/-- Field separator of the handle format. -/
def csiSep : Char := '-'

/-- Decoded volume/snapshot identifier: `{version, clusterID, poolID,
objectUUID}` per §3 of the spec. -/
structure CSIIdentifier where
  encodingVersion : Nat
  clusterID : List Char
  poolID : Nat
  objectUUID : List Char
deriving DecidableEq, Repr

/-- Encode an identifier into the handle string:
`<version:4 hex>-<len(clusterID):4 hex>-<clusterID>-<poolID:16 hex>-<objectUUID>`. -/
def composeCSIID (ci : CSIIdentifier) : List Char :=
  toHex ci.encodingVersion 4 ++ csiSep ::
    (toHex ci.clusterID.length 4 ++ csiSep ::
      (ci.clusterID ++ csiSep ::
        (toHex ci.poolID 16 ++ csiSep :: ci.objectUUID)))

/-- Decode a handle string. Fails (`none`, the InvalidVolumeID outcome) when
the string underflows the 64-byte fixed overhead, a hex field does not parse,
the version is unsupported, the clusterID length exceeds 36, a separator is
out of place, or the total length does not match the embedded clusterID
length. -/
def decomposeCSIID (s : List Char) : Option CSIIdentifier :=
  if s.length < 64 then none else
  match parseHex (s.take 4) with
  | none => none
  | some ver =>
    if ver ≠ supportedVersion then none else
    if s[4]? ≠ some csiSep then none else
    let r1 := s.drop 5
    match parseHex (r1.take 4) with
    | none => none
    | some cl =>
      if 36 < cl then none else
      if r1[4]? ≠ some csiSep then none else
      let r2 := r1.drop 5
      if r2.length ≠ cl + 54 then none else
      if r2[cl]? ≠ some csiSep then none else
      let r3 := r2.drop (cl + 1)
      match parseHex (r3.take 16) with
      | none => none
      | some pool =>
        if r3[16]? ≠ some csiSep then none else
        some ⟨ver, r2.take cl, pool, r3.drop 17⟩

/-! ## Lock registry

Modelled from the spec: the VolumeLocks implementation (internal/util) is not
under src/; its contract is non-blocking named mutual exclusion —
`TryAcquire(key) -> bool` returns false if the key is already held (never
queues, never sleeps) and `Release(key)` is an idempotent no-op when the key
is not held. State is the set of currently held keys. -/

/-- Non-blocking acquire: fails (returning the unchanged state) when the key
is already held, otherwise records the key as held. -/
def tryAcquire (key : String) (locks : List String) : Bool × List String :=
  if key ∈ locks then (false, locks) else (true, key :: locks)

/-- Idempotent release: removes the key when held, no-op otherwise. -/
def release (key : String) (locks : List String) : List String :=
  locks.erase key

/-! ## Error kinds, result codes and collaborator-call traces -/

/-- Classified error kinds returned by identifier/journal lookups, matching
the dynamic error types inspected by the controller server
(util.ErrPoolNotFound, util.ErrKeyNotFound, ErrVolumeNotFound,
util.ErrSnapNotFound, ErrInvalidVolID, ErrCloneInProgress, InvalidCommand,
plus a catch-all). -/
inductive CephErr where
  | poolNotFound
  | keyNotFound
  | volumeNotFound
  | snapNotFound
  | invalidVolID
  | cloneInProgress
  | invalidCommand
  | other
deriving DecidableEq, Repr

/-- gRPC status codes the controller server returns. -/
inductive GrpcCode where
  | ok
  | aborted
  | internal
  | notFound
  | invalidArgument
  | failedPrecondition
deriving DecidableEq, Repr

/-- External/journal calls the controller operations perform, recorded in
order as a trace. -/
inductive Effect where
  | checkVolExists
  | reserveVol
  | createBacking
  | undoVolReservation
  | purgeVolume (name : String)
  | resizeVolume (name : String) (size : Int)
  | checkSnapExists
  | getSubVolumeInfo
  | reserveSnap
  | doSnapshotStep
  | undoSnapReservation
  | unprotectSnapshot
  | deleteSnapshot
  | purgeVolumeDeprecated
  | deleteCephUser
  | metadataDelete
deriving DecidableEq, Repr

/-! ## CreateVolume (ControllerServer.CreateVolume) -/

/-- Identifier pair returned by the journal for a volume: the encoded handle
and the backing subvolume name. -/
structure VolumeIdent where
  volumeID : String
  fsSubvolName : String
deriving DecidableEq, Repr

/-- Result of the backing-volume creation step (createBackingVolume): success,
the non-terminal clone-in-progress condition, or a terminal failure carrying
the gRPC code the step produced. -/
inductive BackingResult where
  | ok
  | cloneInProgress
  | failed (code : GrpcCode)
deriving DecidableEq, Repr

/-- Oracle environment for CreateVolume: outcomes of request validation,
volume-option extraction, the journal lookup by request name
(checkVolExists), the reservation (reserveVol) and the backing creation. -/
structure CreateVolEnv where
  validate : Bool
  volOptionsOk : Bool
  size : Int
  checkVol : Except CephErr (Option VolumeIdent)
  reserve : Except Unit VolumeIdent
  createBacking : BackingResult
deriving Repr

/-- Volume response fields the claims are about. -/
structure CreateVolResp where
  volumeId : String
  capacityBytes : Int
deriving DecidableEq, Repr

/-- ControllerServer.CreateVolume: validate, try the request-name lock,
extract options, look the name up in the journal (idempotent replay
short-circuit), otherwise reserve, create the backing volume, and on a
terminal failure after the reservation undo it (the deferred
undoVolReservation is skipped for ErrCloneInProgress). Returns the gRPC
code, the response if any, the collaborator-call trace and the final lock
state. -/
def createVolume (env : CreateVolEnv) (requestName : String) (locks : List String) :
    GrpcCode × Option CreateVolResp × List Effect × List String :=
  if ¬ env.validate then (.invalidArgument, none, [], locks) else
  match tryAcquire requestName locks with
  | (false, l) => (.aborted, none, [], l)
  | (true, l1) =>
    if ¬ env.volOptionsOk then (.invalidArgument, none, [], release requestName l1) else
    match env.checkVol with
    | .error e =>
      if e = .cloneInProgress then (.aborted, none, [.checkVolExists], release requestName l1)
      else (.internal, none, [.checkVolExists], release requestName l1)
    | .ok (some v) =>
      (.ok, some ⟨v.volumeID, env.size⟩, [.checkVolExists], release requestName l1)
    | .ok none =>
      match env.reserve with
      | .error _ => (.internal, none, [.checkVolExists, .reserveVol], release requestName l1)
      | .ok v =>
        match env.createBacking with
        | .ok =>
          (.ok, some ⟨v.volumeID, env.size⟩, [.checkVolExists, .reserveVol, .createBacking],
            release requestName l1)
        | .cloneInProgress =>
          (.aborted, none, [.checkVolExists, .reserveVol, .createBacking],
            release requestName l1)
        | .failed c =>
          (c, none, [.checkVolExists, .reserveVol, .createBacking, .undoVolReservation],
            release requestName l1)

/-! ## DeleteVolume (ControllerServer.DeleteVolume and the deprecated path) -/

/-- Outcome of newVolumeOptionsFromVolID: a classified error (none on
success) together with the volume metadata, which the Go function returns
alongside an ErrVolumeNotFound error and on success. -/
structure VolLookup where
  err : Option CephErr
  requestName : String
  fsSubvolName : String
deriving DecidableEq, Repr

/-- Oracle environment for the deprecated (1.0.0 metadata-store) deletion
path. -/
structure DeprecatedEnv where
  cacheOtherErr : Bool
  cacheFound : Bool
  provisionVolume : Bool
  creds : Bool
  purgeOk : Bool
  deleteCephUserOk : Bool
  cacheDeleteOk : Bool
deriving Repr

/-- Oracle environment for DeleteVolume. -/
structure DeleteVolEnv where
  validate : Bool
  lookup : VolLookup
  metadataStore : Bool
  deprecated : DeprecatedEnv
  creds : Bool
  purge : Option CephErr
  unreserveOk : Bool
deriving Repr

/-- ControllerServer.deleteVolumeDeprecated: consult the metadata store (a
missing entry means the volume is already deleted), refuse statically
provisioned volumes, then under the VolumeID lock purge the volume, delete
the ceph user and drop the metadata entry. -/
def deleteVolumeDeprecated (env : DeprecatedEnv) (volID : String) (locks : List String) :
    GrpcCode × List Effect × List String :=
  if env.cacheOtherErr then (.internal, [], locks) else
  if ¬ env.cacheFound then (.ok, [], locks) else
  if ¬ env.provisionVolume then (.ok, [], locks) else
  if ¬ env.creds then (.invalidArgument, [], locks) else
  match tryAcquire volID locks with
  | (false, l) => (.aborted, [], l)
  | (true, l1) =>
    if ¬ env.purgeOk then (.internal, [.purgeVolumeDeprecated], release volID l1) else
    if ¬ env.deleteCephUserOk then
      (.internal, [.purgeVolumeDeprecated, .deleteCephUser], release volID l1) else
    if ¬ env.cacheDeleteOk then
      (.internal, [.purgeVolumeDeprecated, .deleteCephUser, .metadataDelete], release volID l1)
    else (.ok, [.purgeVolumeDeprecated, .deleteCephUser, .metadataDelete], release volID l1)

/-- ControllerServer.DeleteVolume: under the VolumeID lock, decode/look up the
identifier and classify the failure (PoolNotFound and KeyNotFound are
idempotent successes; ErrInvalidVolID with a configured metadata store is
delegated to the deprecated path; ErrVolumeNotFound finishes garbage
collection via undoVolReservation under the request-name lock; anything else
is internal). On a successful lookup, purge the subvolume (tolerating
ErrVolumeNotFound) and unreserve. The deferred release after acquiring the
request-name lock names string(volID), not the request name, exactly as in
the source. -/
def deleteVolume (env : DeleteVolEnv) (volID : String) (locks : List String) :
    GrpcCode × List Effect × List String :=
  if ¬ env.validate then (.invalidArgument, [], locks) else
  match tryAcquire volID locks with
  | (false, l) => (.aborted, [], l)
  | (true, l1) =>
    match env.lookup.err with
    | some .poolNotFound => (.ok, [], release volID l1)
    | some .keyNotFound => (.ok, [], release volID l1)
    | some .invalidVolID =>
      if env.metadataStore then
        let (code, tr, l2) := deleteVolumeDeprecated env.deprecated volID l1
        (code, tr, release volID l2)
      else (.internal, [], release volID l1)
    | some .volumeNotFound =>
      match tryAcquire env.lookup.requestName l1 with
      | (false, l2) => (.aborted, [], release volID l2)
      | (true, l2) =>
        if env.unreserveOk then
          (.ok, [.undoVolReservation], release volID (release env.lookup.requestName l2))
        else
          (.internal, [.undoVolReservation], release volID (release env.lookup.requestName l2))
    | some _ => (.internal, [], release volID l1)
    | none =>
      match tryAcquire env.lookup.requestName l1 with
      | (false, l2) => (.aborted, [], release volID l2)
      | (true, l2) =>
        if ¬ env.creds then (.invalidArgument, [], release volID (release volID l2)) else
        match env.purge with
        | some e =>
          if e = .volumeNotFound then
            if env.unreserveOk then
              (.ok, [.purgeVolume env.lookup.fsSubvolName, .undoVolReservation],
                release volID (release volID l2))
            else
              (.internal, [.purgeVolume env.lookup.fsSubvolName, .undoVolReservation],
                release volID (release volID l2))
          else
            (.internal, [.purgeVolume env.lookup.fsSubvolName],
              release volID (release volID l2))
        | none =>
          if env.unreserveOk then
            (.ok, [.purgeVolume env.lookup.fsSubvolName, .undoVolReservation],
              release volID (release volID l2))
          else
            (.internal, [.purgeVolume env.lookup.fsSubvolName, .undoVolReservation],
              release volID (release volID l2))

/-! ## ValidateVolumeCapabilities and ControllerExpandVolume -/

/-- Requested volume capability; only the access type (block vs mount)
matters to the CephFS controller. -/
structure VolCapability where
  isBlock : Bool
deriving DecidableEq, Repr

/-- Response of ValidateVolumeCapabilities: the confirmed capabilities, or
none (with an empty message) when the request is not confirmed. -/
structure ValidateCapsResp where
  confirmed : Option (List VolCapability)
  message : String
deriving DecidableEq, Repr

/-- ControllerServer.ValidateVolumeCapabilities: CephFS does not support
block volumes, so any block-mode capability yields an unconfirmed response;
otherwise the requested capabilities are confirmed verbatim. -/
def validateVolumeCapabilities (caps : List VolCapability) : ValidateCapsResp :=
  if caps.any (fun c => c.isBlock) then ⟨none, ""⟩ else ⟨some caps, ""⟩

/-- Oracle environment for ControllerExpandVolume. -/
structure ExpandEnv where
  validate : Bool
  creds : Bool
  lookupOk : Bool
  subvolName : String
  resizeOk : Bool
deriving Repr

/-- Response of ControllerExpandVolume. -/
structure ExpandResp where
  capacityBytes : Int
  nodeExpansionRequired : Bool
deriving DecidableEq, Repr

/-- ControllerServer.ControllerExpandVolume: validate, take the VolumeID
lock, get credentials and volume options, then resize the subvolume to
RoundOffBytes(requiredBytes) and report exactly that size. The round-off
helper (util.RoundOffBytes, not under src/) is passed in as a function. -/
def controllerExpandVolume (roundOffBytes : Int → Int) (env : ExpandEnv)
    (volID : String) (requiredBytes : Int) (locks : List String) :
    GrpcCode × Option ExpandResp × List Effect × List String :=
  if ¬ env.validate then (.invalidArgument, none, [], locks) else
  match tryAcquire volID locks with
  | (false, l) => (.aborted, none, [], l)
  | (true, l1) =>
    if ¬ env.creds then (.invalidArgument, none, [], release volID l1) else
    if ¬ env.lookupOk then (.invalidArgument, none, [], release volID l1) else
    if env.resizeOk then
      (.ok, some ⟨roundOffBytes requiredBytes, false⟩,
        [.resizeVolume env.subvolName (roundOffBytes requiredBytes)], release volID l1)
    else
      (.internal, none,
        [.resizeVolume env.subvolName (roundOffBytes requiredBytes)], release volID l1)

/-! ## CreateSnapshot and DeleteSnapshot -/

/-- Parent volume data used by CreateSnapshot: the size recorded in the
parent volume options and the backing subvolume name. -/
structure ParentVol where
  size : Int
  fsSubvolName : String
deriving DecidableEq, Repr

/-- Journal record of an existing snapshot (checkSnapExists hit). -/
structure SnapInfo where
  snapshotID : String
  creationTime : Int
deriving DecidableEq, Repr

/-- Reserved snapshot identifiers (reserveSnap result). -/
structure SnapIdent where
  snapshotID : String
  fsSnapshotName : String
deriving DecidableEq, Repr

/-- Oracle environment for CreateSnapshot. -/
structure CreateSnapEnv where
  validate : Bool
  parentLookup : Except CephErr ParentVol
  checkSnap : Except CephErr (Option SnapInfo)
  creds : Bool
  subVolInfoQuota : Except CephErr Int
  reserve : Except Unit SnapIdent
  doSnapCreationTime : Except Unit Int
deriving Repr

/-- Snapshot response fields the claims are about. -/
structure CreateSnapResp where
  sizeBytes : Int
  snapshotId : String
  creationTime : Int
  readyToUse : Bool
deriving DecidableEq, Repr

/-- ControllerServer.CreateSnapshot: under the snapshot request-name lock,
resolve the parent volume, consult the journal (checkSnapExists); a replayed
request answers from the parent volume options size, a fresh one measures the
parent via getSubVolumeInfo (BytesQuota), reserves, snapshots (doSnapshot)
and undoes the reservation on failure. Both success paths report
ReadyToUse = true. -/
def createSnapshot (env : CreateSnapEnv) (requestName : String) (locks : List String) :
    GrpcCode × Option CreateSnapResp × List Effect × List String :=
  if ¬ env.validate then (.invalidArgument, none, [], locks) else
  match tryAcquire requestName locks with
  | (false, l) => (.aborted, none, [], l)
  | (true, l1) =>
    match env.parentLookup with
    | .error e =>
      if e = .poolNotFound then (.notFound, none, [], release requestName l1)
      else if e = .volumeNotFound then (.notFound, none, [], release requestName l1)
      else (.internal, none, [], release requestName l1)
    | .ok parent =>
      match env.checkSnap with
      | .error _ => (.internal, none, [.checkSnapExists], release requestName l1)
      | .ok (some si) =>
        (.ok, some ⟨parent.size, si.snapshotID, si.creationTime, true⟩,
          [.checkSnapExists], release requestName l1)
      | .ok none =>
        if ¬ env.creds then (.internal, none, [.checkSnapExists], release requestName l1) else
        match env.subVolInfoQuota with
        | .error e =>
          if e = .invalidCommand then
            (.failedPrecondition, none, [.checkSnapExists, .getSubVolumeInfo],
              release requestName l1)
          else
            (.internal, none, [.checkSnapExists, .getSubVolumeInfo], release requestName l1)
        | .ok quota =>
          match env.reserve with
          | .error _ =>
            (.internal, none, [.checkSnapExists, .getSubVolumeInfo, .reserveSnap],
              release requestName l1)
          | .ok sid =>
            match env.doSnapCreationTime with
            | .error _ =>
              (.internal, none,
                [.checkSnapExists, .getSubVolumeInfo, .reserveSnap, .doSnapshotStep,
                  .undoSnapReservation], release requestName l1)
            | .ok ct =>
              (.ok, some ⟨quota, sid.snapshotID, ct, true⟩,
                [.checkSnapExists, .getSubVolumeInfo, .reserveSnap, .doSnapshotStep],
                release requestName l1)

/-- Outcome of newSnapshotOptionsFromID: a classified error (none on success)
together with the snapshot metadata, which the Go function returns alongside
an ErrSnapNotFound error and on success. -/
structure SnapLookup where
  err : Option CephErr
  requestName : String
  fsSnapshotName : String
deriving DecidableEq, Repr

/-- Oracle environment for DeleteSnapshot. -/
structure DeleteSnapEnv where
  validate : Bool
  creds : Bool
  lookup : SnapLookup
  unprotectOk : Bool
  deleteSnapOk : Bool
  unreserveOk : Bool
deriving Repr

/-- ControllerServer.DeleteSnapshot: under the SnapshotID lock, classify the
identifier lookup (PoolNotFound and KeyNotFound are idempotent successes;
ErrSnapNotFound finishes garbage collection via undoSnapReservation; anything
else is internal). On success, under the snapshot request-name lock:
unprotect, delete, unreserve. -/
def deleteSnapshot (env : DeleteSnapEnv) (snapshotID : String) (locks : List String) :
    GrpcCode × List Effect × List String :=
  if ¬ env.validate then (.invalidArgument, [], locks) else
  if ¬ env.creds then (.invalidArgument, [], locks) else
  if snapshotID = "" then (.invalidArgument, [], locks) else
  match tryAcquire snapshotID locks with
  | (false, l) => (.aborted, [], l)
  | (true, l1) =>
    match env.lookup.err with
    | some .poolNotFound => (.ok, [], release snapshotID l1)
    | some .keyNotFound => (.ok, [], release snapshotID l1)
    | some .snapNotFound =>
      if env.unreserveOk then (.ok, [.undoSnapReservation], release snapshotID l1)
      else (.internal, [.undoSnapReservation], release snapshotID l1)
    | some _ => (.internal, [], release snapshotID l1)
    | none =>
      match tryAcquire env.lookup.requestName l1 with
      | (false, l2) => (.aborted, [], release snapshotID l2)
      | (true, l2) =>
        if ¬ env.unprotectOk then
          (.internal, [.unprotectSnapshot],
            release snapshotID (release env.lookup.requestName l2))
        else if ¬ env.deleteSnapOk then
          (.internal, [.unprotectSnapshot, .deleteSnapshot],
            release snapshotID (release env.lookup.requestName l2))
        else if ¬ env.unreserveOk then
          (.internal, [.unprotectSnapshot, .deleteSnapshot, .undoSnapReservation],
            release snapshotID (release env.lookup.requestName l2))
        else
          (.ok, [.unprotectSnapshot, .deleteSnapshot, .undoSnapReservation],
            release snapshotID (release env.lookup.requestName l2))

/-! ## createCloneFromSubvolume (internal/cephfs/clone.go) -/

/-- Steps performed by createCloneFromSubvolume, both main-line and the
deferred best-effort cleanup (cleanup failures are only logged, so the
environment carries no outcome for them). -/
inductive CloneAct where
  | createSnapshot
  | protectSnapshot
  | cloneSnapshot
  | getCloneInfo
  | resizeVolume
  | unprotectSnapshot
  | deleteSnapshot
  | cleanupDeleteSnapshot
  | cleanupUnprotect
  | cleanupPurgeVolume
deriving DecidableEq, Repr

/-- Oracle environment for createCloneFromSubvolume: outcomes of the
temporary snapshot creation, protect, clone, clone-status query (none means
the query itself failed), resize, unprotect and final snapshot deletion. -/
structure CloneEnv where
  createSnapOk : Bool
  protectOk : Bool
  cloneOk : Bool
  cloneState : Option String
  resizeOk : Bool
  unprotectOk : Bool
  deleteSnapOk : Bool
deriving Repr

/-- createCloneFromSubvolume: snapshot the live source, protect it, clone
from it, query the clone status, resize, then unprotect and delete the
temporary snapshot. The deferred handler deletes the snapshot when
`protectErr` is set and unprotects, deletes the snapshot and purges the
clone when `cloneErr` is set — and, exactly as in the source, the clone
step's error is assigned to `protectErr`, a failing status query falls
through the stale `err` check into the clone-in-progress return with
`cloneErr` set, and an incomplete clone state returns clone-in-progress with
both error variables nil. -/
def createCloneFromSubvolume (env : CloneEnv) : Option CephErr × List CloneAct :=
  if ¬ env.createSnapOk then (some .other, [.createSnapshot]) else
  if ¬ env.protectOk then
    (some .other, [.createSnapshot, .protectSnapshot, .cleanupDeleteSnapshot]) else
  if ¬ env.cloneOk then
    (some .other,
      [.createSnapshot, .protectSnapshot, .cloneSnapshot, .cleanupDeleteSnapshot]) else
  match env.cloneState with
  | none =>
    (some .cloneInProgress,
      [.createSnapshot, .protectSnapshot, .cloneSnapshot, .getCloneInfo,
        .cleanupUnprotect, .cleanupDeleteSnapshot, .cleanupPurgeVolume])
  | some state =>
    if state ≠ "complete" then
      (some .cloneInProgress,
        [.createSnapshot, .protectSnapshot, .cloneSnapshot, .getCloneInfo]) else
    if ¬ env.resizeOk then
      (some .other,
        [.createSnapshot, .protectSnapshot, .cloneSnapshot, .getCloneInfo, .resizeVolume,
          .cleanupUnprotect, .cleanupDeleteSnapshot, .cleanupPurgeVolume]) else
    if ¬ env.unprotectOk then
      (some .other,
        [.createSnapshot, .protectSnapshot, .cloneSnapshot, .getCloneInfo, .resizeVolume,
          .unprotectSnapshot, .cleanupUnprotect, .cleanupDeleteSnapshot,
          .cleanupPurgeVolume]) else
    if ¬ env.deleteSnapOk then
      (some .other,
        [.createSnapshot, .protectSnapshot, .cloneSnapshot, .getCloneInfo, .resizeVolume,
          .unprotectSnapshot, .deleteSnapshot, .cleanupUnprotect, .cleanupDeleteSnapshot,
          .cleanupPurgeVolume])
    else
      (none,
        [.createSnapshot, .protectSnapshot, .cloneSnapshot, .getCloneInfo, .resizeVolume,
          .unprotectSnapshot, .deleteSnapshot])

/-! ## Concrete sample inputs -/

/-- Sample identifier from the design document:
`0001-0009-rook-ceph-0000000000000002-b0285c97-a0ce-11eb-8c66-0242ac110002`. -/
def sampleCSIID : CSIIdentifier :=
  { encodingVersion := 1
    clusterID := "rook-ceph".toList
    poolID := 2
    objectUUID := "b0285c97-a0ce-11eb-8c66-0242ac110002".toList }

/-- DeleteVolume environment whose identifier lookup fails with
ErrInvalidVolID while a (1.0.0) metadata store is configured and holds no
entry for the volume. -/
def envDeleteLegacy : DeleteVolEnv :=
  { validate := true
    lookup := { err := some .invalidVolID, requestName := "pvc-1", fsSubvolName := "csi-vol-a" }
    metadataStore := true
    deprecated := { cacheOtherErr := false, cacheFound := false, provisionVolume := true,
                    creds := true, purgeOk := true, deleteCephUserOk := true,
                    cacheDeleteOk := true }
    creds := true
    purge := none
    unreserveOk := true }

/-- DeleteVolume environment whose lookup fails with ErrVolumeNotFound
(reverse journal entry present, backing subvolume gone). -/
def envDeleteGone : DeleteVolEnv :=
  { validate := true
    lookup := { err := some .volumeNotFound, requestName := "pvc-1", fsSubvolName := "csi-vol-a" }
    metadataStore := false
    deprecated := { cacheOtherErr := false, cacheFound := false, provisionVolume := false,
                    creds := true, purgeOk := true, deleteCephUserOk := true,
                    cacheDeleteOk := true }
    creds := true
    purge := none
    unreserveOk := true }

/-- DeleteVolume environment where everything succeeds. -/
def envDeleteOk : DeleteVolEnv :=
  { validate := true
    lookup := { err := none, requestName := "pvc-1", fsSubvolName := "csi-vol-a" }
    metadataStore := false
    deprecated := { cacheOtherErr := false, cacheFound := false, provisionVolume := false,
                    creds := true, purgeOk := true, deleteCephUserOk := true,
                    cacheDeleteOk := true }
    creds := true
    purge := none
    unreserveOk := true }

/-- DeleteSnapshot environment whose lookup fails with ErrSnapNotFound. -/
def envDeleteSnapGone : DeleteSnapEnv :=
  { validate := true
    creds := true
    lookup := { err := some .snapNotFound, requestName := "snap-1", fsSnapshotName := "csi-snap-a" }
    unprotectOk := true
    deleteSnapOk := true
    unreserveOk := true }

/-- CreateVolume environment whose journal lookup by name hits an existing
complete volume. -/
def envCreateReplay : CreateVolEnv :=
  { validate := true
    volOptionsOk := true
    size := 1073741824
    checkVol := .ok (some { volumeID := "0001-0009-rook-ceph-0000000000000002-b0285c97-a0ce-11eb-8c66-0242ac110002", fsSubvolName := "csi-vol-b0285c97" })
    reserve := .ok { volumeID := "unused", fsSubvolName := "unused" }
    createBacking := .ok }

/-- CreateVolume environment that reserves and then hits the non-terminal
clone-in-progress condition while creating the backing volume. -/
def envCreateCloning : CreateVolEnv :=
  { validate := true
    volOptionsOk := true
    size := 1073741824
    checkVol := .ok none
    reserve := .ok { volumeID := "0001-0009-rook-ceph-0000000000000002-b0285c97-a0ce-11eb-8c66-0242ac110002", fsSubvolName := "csi-vol-b0285c97" }
    createBacking := .cloneInProgress }

/-- CreateSnapshot environment replaying a request whose snapshot already
exists in the journal. -/
def envSnapReplay : CreateSnapEnv :=
  { validate := true
    parentLookup := .ok { size := 1073741824, fsSubvolName := "csi-vol-b0285c97" }
    checkSnap := .ok (some { snapshotID := "snap-handle-1", creationTime := 17 })
    creds := true
    subVolInfoQuota := .ok 2147483648
    reserve := .ok { snapshotID := "snap-handle-1", fsSnapshotName := "csi-snap-a" }
    doSnapCreationTime := .ok 17 }

/-- CreateSnapshot environment creating a fresh snapshot; the parent
subvolume's measured BytesQuota differs from the size in the parent volume
options. -/
def envSnapFresh : CreateSnapEnv :=
  { validate := true
    parentLookup := .ok { size := 1073741824, fsSubvolName := "csi-vol-b0285c97" }
    checkSnap := .ok none
    creds := true
    subVolInfoQuota := .ok 2147483648
    reserve := .ok { snapshotID := "snap-handle-1", fsSnapshotName := "csi-snap-a" }
    doSnapCreationTime := .ok 17 }

/-- ControllerExpandVolume environment where every collaborator call
succeeds. -/
def envExpandOk : ExpandEnv :=
  { validate := true
    creds := true
    lookupOk := true
    subvolName := "csi-vol-b0285c97"
    resizeOk := true }

/-- createCloneFromSubvolume environment where the temporary snapshot is
created and protected and then the clone step itself fails. -/
def envCloneStepFails : CloneEnv :=
  { createSnapOk := true
    protectOk := true
    cloneOk := false
    cloneState := some "complete"
    resizeOk := true
    unprotectOk := true
    deleteSnapOk := true }

/-! ## Helper lemmas for the codec -/

theorem toHex_length (n w : Nat) : (toHex n w).length = w := by
  induction w with
  | zero => rfl
  | succ k ih => simp [toHex, ih]

theorem hexCharVal_hexChar {v : Nat} (h : v < 16) : hexCharVal (hexChar v) = some v := by
  interval_cases v <;> decide

theorem hexCharVal_lt {c : Char} {v : Nat} (h : hexCharVal c = some v) : v < 16 := by
  unfold hexCharVal at h
  split at h
  · simp only [Option.some.injEq] at h; omega
  · split at h
    · simp only [Option.some.injEq] at h; omega
    · exact absurd h (by simp)

theorem parseHexAux_toHex (w : Nat) : ∀ acc n, parseHexAux acc (toHex n w) = some (acc * 16 ^ w + n % 16 ^ w) := by
  induction w with
  | zero => intro acc n; simp [toHex, parseHexAux, Nat.mod_one]
  | succ k ih =>
    intro acc n
    have hd : n / 16 ^ k % 16 < 16 := Nat.mod_lt _ (by omega)
    simp only [toHex, parseHexAux, hexCharVal_hexChar hd]
    rw [ih]
    congr 1
    have h1 : (16 : Nat) ^ (k + 1) = 16 ^ k * 16 := by ring
    rw [h1, Nat.mod_mul]
    ring

/-- Initial-segment facts used to walk the separator-delimited handle layout:
for a list shaped `a ++ sep :: rest` with `a.length = w`, taking `w` characters
yields `a`, position `w` holds the separator, and dropping `w + 1` yields
`rest`. -/
theorem seg_take {α : Type} (a rest : List α) (c : α) {w : Nat} (hw : a.length = w) :
    (a ++ c :: rest).take w = a := by
  subst hw; simp [List.take_left]

theorem seg_get {α : Type} (a rest : List α) (c : α) {w : Nat} (hw : a.length = w) :
    (a ++ c :: rest)[w]? = some c := by
  subst hw
  rw [List.getElem?_append_right (Nat.le_refl _)]
  simp

theorem seg_drop {α : Type} (a rest : List α) (c : α) {w : Nat} (hw : a.length = w) :
    (a ++ c :: rest).drop (w + 1) = rest := by
  subst hw; simp [List.drop_append 1]


theorem parseHex_toHex {n w : Nat} (h : n < 16 ^ w) : parseHex (toHex n w) = some n := by
  unfold parseHex
  rw [parseHexAux_toHex]
  simp [Nat.mod_eq_of_lt h]

theorem decompose_compose_eq (ci : CSIIdentifier)
    (hv : ci.encodingVersion = supportedVersion)
    (hc : ci.clusterID.length ≤ 36)
    (hu : ci.objectUUID.length = 36)
    (hp : ci.poolID < 16 ^ 16) :
    decomposeCSIID (composeCSIID ci) = some ci := by
  obtain ⟨ver, cid, pool, uuid⟩ := ci
  simp only at hv hc hu hp
  subst hv
  have hver : parseHex (toHex supportedVersion 4) = some supportedVersion :=
    parseHex_toHex (by decide)
  have hcl : parseHex (toHex cid.length 4) = some cid.length :=
    parseHex_toHex (by omega)
  have hpool : parseHex (toHex pool 16) = some pool := parseHex_toHex hp
  have f1 := seg_take (toHex supportedVersion 4)
    (toHex cid.length 4 ++ csiSep :: (cid ++ csiSep :: (toHex pool 16 ++ csiSep :: uuid)))
    csiSep (toHex_length supportedVersion 4)
  have f2 := seg_get (toHex supportedVersion 4)
    (toHex cid.length 4 ++ csiSep :: (cid ++ csiSep :: (toHex pool 16 ++ csiSep :: uuid)))
    csiSep (toHex_length supportedVersion 4)
  have f3 := seg_drop (toHex supportedVersion 4)
    (toHex cid.length 4 ++ csiSep :: (cid ++ csiSep :: (toHex pool 16 ++ csiSep :: uuid)))
    csiSep (toHex_length supportedVersion 4)
  have f4 := seg_take (toHex cid.length 4)
    (cid ++ csiSep :: (toHex pool 16 ++ csiSep :: uuid)) csiSep (toHex_length cid.length 4)
  have f5 := seg_get (toHex cid.length 4)
    (cid ++ csiSep :: (toHex pool 16 ++ csiSep :: uuid)) csiSep (toHex_length cid.length 4)
  have f6 := seg_drop (toHex cid.length 4)
    (cid ++ csiSep :: (toHex pool 16 ++ csiSep :: uuid)) csiSep (toHex_length cid.length 4)
  have f7 := seg_take cid (toHex pool 16 ++ csiSep :: uuid) csiSep rfl
  have f8 := seg_get cid (toHex pool 16 ++ csiSep :: uuid) csiSep rfl
  have f9 := seg_drop cid (toHex pool 16 ++ csiSep :: uuid) csiSep rfl
  have f10 := seg_take (toHex pool 16) uuid csiSep (toHex_length pool 16)
  have f11 := seg_get (toHex pool 16) uuid csiSep (toHex_length pool 16)
  have f12 := seg_drop (toHex pool 16) uuid csiSep (toHex_length pool 16)
  have hlen : (composeCSIID ⟨supportedVersion, cid, pool, uuid⟩).length = 64 + cid.length := by
    simp [composeCSIID, toHex_length, hu]; omega
  simp only [composeCSIID] at hlen f1 f2 f3 ⊢
  rw [decomposeCSIID]
  rw [hlen]
  simp only [show ¬(64 + cid.length < 64) from by omega, if_false, f1, hver]
  simp only [show ¬(supportedVersion ≠ supportedVersion) from by simp, if_false]
  simp only [f2, show ¬(some csiSep ≠ some csiSep) from by simp, if_false, f3]
  simp only [f4, hcl, f5, show ¬(some csiSep ≠ some csiSep) from by simp, if_false,
    show ¬(36 < cid.length) from by omega, f6]
  have hlen2 : (cid ++ csiSep :: (toHex pool 16 ++ csiSep :: uuid)).length = cid.length + 54 := by
    simp [toHex_length, hu]
  simp only [hlen2, show ¬(cid.length + 54 ≠ cid.length + 54) from by simp, if_false,
    f7, f8, show ¬(some csiSep ≠ some csiSep) from by simp, f9, f10, hpool, f11, f12]

theorem decompose_short {s : List Char} (h : s.length < 64) : decomposeCSIID s = none := by
  simp [decomposeCSIID, h]

theorem decompose_extraSep (ci : CSIIdentifier) (t : List Char)
    (hv : ci.encodingVersion = supportedVersion)
    (hc : ci.clusterID.length ≤ 36)
    (hu : ci.objectUUID.length = 36) :
    decomposeCSIID (composeCSIID ci ++ csiSep :: t) = none := by
  obtain ⟨ver, cid, pool, uuid⟩ := ci
  simp only at hv hc hu
  subst hv
  have hshape : composeCSIID ⟨supportedVersion, cid, pool, uuid⟩ ++ csiSep :: t =
      toHex supportedVersion 4 ++ csiSep ::
        (toHex cid.length 4 ++ csiSep ::
          (cid ++ csiSep :: (toHex pool 16 ++ csiSep :: (uuid ++ csiSep :: t)))) := by
    simp [composeCSIID]
  rw [hshape]
  have hver : parseHex (toHex supportedVersion 4) = some supportedVersion :=
    parseHex_toHex (by decide)
  have hcl : parseHex (toHex cid.length 4) = some cid.length :=
    parseHex_toHex (by omega)
  have f1 := seg_take (toHex supportedVersion 4)
    (toHex cid.length 4 ++ csiSep :: (cid ++ csiSep :: (toHex pool 16 ++ csiSep :: (uuid ++ csiSep :: t))))
    csiSep (toHex_length supportedVersion 4)
  have f2 := seg_get (toHex supportedVersion 4)
    (toHex cid.length 4 ++ csiSep :: (cid ++ csiSep :: (toHex pool 16 ++ csiSep :: (uuid ++ csiSep :: t))))
    csiSep (toHex_length supportedVersion 4)
  have f3 := seg_drop (toHex supportedVersion 4)
    (toHex cid.length 4 ++ csiSep :: (cid ++ csiSep :: (toHex pool 16 ++ csiSep :: (uuid ++ csiSep :: t))))
    csiSep (toHex_length supportedVersion 4)
  have f4 := seg_take (toHex cid.length 4)
    (cid ++ csiSep :: (toHex pool 16 ++ csiSep :: (uuid ++ csiSep :: t))) csiSep
    (toHex_length cid.length 4)
  have f5 := seg_get (toHex cid.length 4)
    (cid ++ csiSep :: (toHex pool 16 ++ csiSep :: (uuid ++ csiSep :: t))) csiSep
    (toHex_length cid.length 4)
  have f6 := seg_drop (toHex cid.length 4)
    (cid ++ csiSep :: (toHex pool 16 ++ csiSep :: (uuid ++ csiSep :: t))) csiSep
    (toHex_length cid.length 4)
  have hlen : (toHex supportedVersion 4 ++ csiSep ::
      (toHex cid.length 4 ++ csiSep ::
        (cid ++ csiSep :: (toHex pool 16 ++ csiSep :: (uuid ++ csiSep :: t))))).length
      = 65 + cid.length + t.length := by
    simp [toHex_length, hu]; omega
  rw [decomposeCSIID]
  rw [hlen]
  simp only [show ¬(65 + cid.length + t.length < 64) from by omega, if_false, f1, hver]
  simp only [show ¬(supportedVersion ≠ supportedVersion) from by simp, if_false]
  simp only [f2, show ¬(some csiSep ≠ some csiSep) from by simp, if_false, f3]
  simp only [f4, hcl, f5, show ¬(some csiSep ≠ some csiSep) from by simp, if_false,
    show ¬(36 < cid.length) from by omega, f6]
  have hlen2 : (cid ++ csiSep :: (toHex pool 16 ++ csiSep :: (uuid ++ csiSep :: t))).length
      = cid.length + 55 + t.length := by
    simp [toHex_length, hu]; omega
  simp only [hlen2]
  rw [if_pos (show cid.length + 55 + t.length ≠ cid.length + 54 from by omega)]

theorem decompose_oversized (ci : CSIIdentifier)
    (hv : ci.encodingVersion = supportedVersion)
    (hc : 36 < ci.clusterID.length)
    (hc4 : ci.clusterID.length < 16 ^ 4) :
    decomposeCSIID (composeCSIID ci) = none := by
  obtain ⟨ver, cid, pool, uuid⟩ := ci
  simp only at hv hc hc4
  subst hv
  have hver : parseHex (toHex supportedVersion 4) = some supportedVersion :=
    parseHex_toHex (by decide)
  have hcl : parseHex (toHex cid.length 4) = some cid.length := parseHex_toHex hc4
  have f1 := seg_take (toHex supportedVersion 4)
    (toHex cid.length 4 ++ csiSep :: (cid ++ csiSep :: (toHex pool 16 ++ csiSep :: uuid)))
    csiSep (toHex_length supportedVersion 4)
  have f2 := seg_get (toHex supportedVersion 4)
    (toHex cid.length 4 ++ csiSep :: (cid ++ csiSep :: (toHex pool 16 ++ csiSep :: uuid)))
    csiSep (toHex_length supportedVersion 4)
  have f3 := seg_drop (toHex supportedVersion 4)
    (toHex cid.length 4 ++ csiSep :: (cid ++ csiSep :: (toHex pool 16 ++ csiSep :: uuid)))
    csiSep (toHex_length supportedVersion 4)
  have f4 := seg_take (toHex cid.length 4)
    (cid ++ csiSep :: (toHex pool 16 ++ csiSep :: uuid)) csiSep (toHex_length cid.length 4)
  have f5 := seg_get (toHex cid.length 4)
    (cid ++ csiSep :: (toHex pool 16 ++ csiSep :: uuid)) csiSep (toHex_length cid.length 4)
  have hlen : (composeCSIID ⟨supportedVersion, cid, pool, uuid⟩).length
      = 28 + cid.length + uuid.length := by
    simp [composeCSIID, toHex_length]; omega
  simp only [composeCSIID] at hlen f1 f2 f3 ⊢
  rw [decomposeCSIID]
  rw [hlen]
  simp only [show ¬(28 + cid.length + uuid.length < 64) from by omega, if_false, f1, hver]
  simp only [show ¬(supportedVersion ≠ supportedVersion) from by simp, if_false]
  simp only [f2, show ¬(some csiSep ≠ some csiSep) from by simp, if_false, f3]
  simp only [f4, hcl, f5, show ¬(some csiSep ≠ some csiSep) from by simp, if_false]
  rw [if_pos hc]

/-! ## Claim theorems -/

/-- C3: for every identifier with clusterID at most 36 bytes and a supported
version (and well-formed fixed-width fields), decoding the encoded handle
yields the identifier back; decoding fails for truncated inputs (already
below the 64-byte fixed overhead), for inputs extended past the encoding by
an extra separator and trailing garbage, and for encodings carrying an
oversized clusterID. -/
theorem codec_roundtrip_and_rejection :
    (∀ ci : CSIIdentifier, ci.encodingVersion = supportedVersion →
      ci.clusterID.length ≤ 36 → ci.objectUUID.length = 36 → ci.poolID < 16 ^ 16 →
      decomposeCSIID (composeCSIID ci) = some ci) ∧
    (∀ s : List Char, s.length < 64 → decomposeCSIID s = none) ∧
    (∀ (ci : CSIIdentifier) (t : List Char), ci.encodingVersion = supportedVersion →
      ci.clusterID.length ≤ 36 → ci.objectUUID.length = 36 →
      decomposeCSIID (composeCSIID ci ++ csiSep :: t) = none) ∧
    (∀ ci : CSIIdentifier, ci.encodingVersion = supportedVersion →
      36 < ci.clusterID.length → ci.clusterID.length < 16 ^ 4 →
      decomposeCSIID (composeCSIID ci) = none) :=
  ⟨decompose_compose_eq, fun _ h => decompose_short h, decompose_extraSep,
    decompose_oversized⟩

/-- Witness for C3 at the design document's sample identifier. -/
theorem codec_roundtrip_witness :
    decomposeCSIID (composeCSIID sampleCSIID) = some sampleCSIID :=
  codec_roundtrip_and_rejection.1 sampleCSIID (by decide) (by decide) (by decide) (by decide)

/-- C2: a CreateVolume request whose name the journal already maps to a
complete backing volume returns that same volume identifier unchanged, with
no reservation and no backing-object creation — the trace holds only the
journal lookup, and the lock state is restored. -/
theorem createVolume_replay_idempotent (env : CreateVolEnv) (requestName : String)
    (locks : List String) (v : VolumeIdent)
    (hval : env.validate = true) (hopt : env.volOptionsOk = true)
    (hfree : requestName ∉ locks) (hhit : env.checkVol = .ok (some v)) :
    createVolume env requestName locks =
      (.ok, some ⟨v.volumeID, env.size⟩, [.checkVolExists], locks) := by
  simp [createVolume, tryAcquire, hval, hopt, hfree, hhit, release]

/-- Witness for C2 at a concrete environment. -/
theorem createVolume_replay_witness :
    createVolume envCreateReplay "pvc-1" [] =
      (.ok, some ⟨"0001-0009-rook-ceph-0000000000000002-b0285c97-a0ce-11eb-8c66-0242ac110002", 1073741824⟩,
        [.checkVolExists], []) :=
  createVolume_replay_idempotent envCreateReplay "pvc-1" [] _ rfl rfl (by simp) rfl

/-- C4: after a successful reservation, a CreateVolume attempt failing with
the non-terminal clone-in-progress condition is surfaced as Aborted with the
reservation kept (no undoVolReservation in the trace), while every terminal
failure undoes the reservation before returning. -/
theorem createVolume_reservation_rollback (env : CreateVolEnv) (requestName : String)
    (locks : List String) (v : VolumeIdent)
    (hval : env.validate = true) (hopt : env.volOptionsOk = true)
    (hfree : requestName ∉ locks) (hmiss : env.checkVol = .ok none)
    (hres : env.reserve = .ok v) :
    (env.createBacking = .cloneInProgress →
      createVolume env requestName locks =
        (.aborted, none, [.checkVolExists, .reserveVol, .createBacking], locks)) ∧
    (∀ c : GrpcCode, env.createBacking = .failed c →
      createVolume env requestName locks =
        (c, none, [.checkVolExists, .reserveVol, .createBacking, .undoVolReservation],
          locks)) := by
  constructor
  · intro hcb
    simp [createVolume, tryAcquire, hval, hopt, hfree, hmiss, hres, hcb, release]
  · intro c hcb
    simp [createVolume, tryAcquire, hval, hopt, hfree, hmiss, hres, hcb, release]

/-- Witness for C4 at a concrete environment hitting clone-in-progress. -/
theorem createVolume_reservation_witness :
    createVolume envCreateCloning "pvc-1" [] =
      (.aborted, none, [.checkVolExists, .reserveVol, .createBacking], []) :=
  (createVolume_reservation_rollback envCreateCloning "pvc-1" [] _ rfl rfl (by simp) rfl
    rfl).1 rfl

/-- C6: a CreateVolume request arriving while the request-name lock is held
fails immediately with Aborted: no journal lookup, no reservation, no
backing-object call (empty trace) and the lock state is untouched. -/
theorem createVolume_lock_contention (env : CreateVolEnv) (requestName : String)
    (locks : List String) (hval : env.validate = true) (hheld : requestName ∈ locks) :
    createVolume env requestName locks = (.aborted, none, [], locks) := by
  simp [createVolume, tryAcquire, hval, hheld]

/-- Witness for C6: the same request name already being operated on. -/
theorem createVolume_lock_contention_witness :
    createVolume envCreateReplay "pvc-1" ["pvc-1"] = (.aborted, none, [], ["pvc-1"]) :=
  createVolume_lock_contention envCreateReplay "pvc-1" ["pvc-1"] rfl (by simp)

/-- C8: a successful ControllerExpandVolume resizes the backing subvolume to
the rounded-up size computed from the requested required bytes and reports
exactly that size as the new capacity (with no node expansion required). -/
theorem expandVolume_rounded_size (roundOffBytes : Int → Int) (env : ExpandEnv)
    (volID : String) (requiredBytes : Int) (locks : List String)
    (hval : env.validate = true) (hcr : env.creds = true) (hlk : env.lookupOk = true)
    (hrs : env.resizeOk = true) (hfree : volID ∉ locks) :
    controllerExpandVolume roundOffBytes env volID requiredBytes locks =
      (.ok, some ⟨roundOffBytes requiredBytes, false⟩,
        [.resizeVolume env.subvolName (roundOffBytes requiredBytes)], locks) := by
  simp [controllerExpandVolume, tryAcquire, hval, hcr, hlk, hrs, hfree, release]

/-- Witness for C8 with MiB round-up as the concrete round-off function. -/
theorem expandVolume_rounded_size_witness :
    controllerExpandVolume (fun b => (b + 1048575) / 1048576 * 1048576) envExpandOk
      "vol-1" 1000000 [] =
      (.ok, some ⟨1048576, false⟩, [.resizeVolume "csi-vol-b0285c97" 1048576], []) :=
  expandVolume_rounded_size (fun b => (b + 1048575) / 1048576 * 1048576) envExpandOk
    "vol-1" 1000000 [] rfl rfl rfl rfl (by simp)

/-- C9: ValidateVolumeCapabilities does not confirm any request containing a
block-mode capability, and confirms exactly the requested capabilities when
none is block-mode. -/
theorem validateCapabilities_rejects_block :
    (∀ caps : List VolCapability, (∃ c ∈ caps, c.isBlock = true) →
      (validateVolumeCapabilities caps).confirmed = none) ∧
    (∀ caps : List VolCapability, (∀ c ∈ caps, c.isBlock = false) →
      (validateVolumeCapabilities caps).confirmed = some caps) := by
  constructor
  · intro caps h
    obtain ⟨c, hc, hb⟩ := h
    have ha : caps.any (fun c => c.isBlock) = true := List.any_eq_true.mpr ⟨c, hc, hb⟩
    simp [validateVolumeCapabilities, ha]
  · intro caps h
    have ha : caps.any (fun c => c.isBlock) = false := by
      rw [List.any_eq_false]
      intro c hc
      simp [h c hc]
    simp [validateVolumeCapabilities, ha]

/-- Witness for C9: one block capability is refused, one mount capability is
confirmed. -/
theorem validateCapabilities_witness :
    (validateVolumeCapabilities [⟨true⟩]).confirmed = none ∧
    (validateVolumeCapabilities [⟨false⟩]).confirmed = some [⟨false⟩] :=
  ⟨validateCapabilities_rejects_block.1 [⟨true⟩] ⟨⟨true⟩, by simp, rfl⟩,
    validateCapabilities_rejects_block.2 [⟨false⟩] (by intro c hc; simp at hc; simp [hc])⟩

/-- C10: CreateSnapshot reports the snapshot size from the parent volume
options when replaying a request whose snapshot already exists, and from the
parent subvolume's measured BytesQuota when creating a fresh snapshot; both
paths report ReadyToUse = true. -/
theorem createSnapshot_size_sources (env : CreateSnapEnv) (requestName : String)
    (locks : List String) (parent : ParentVol)
    (hval : env.validate = true) (hfree : requestName ∉ locks)
    (hpar : env.parentLookup = .ok parent) :
    (∀ si : SnapInfo, env.checkSnap = .ok (some si) →
      createSnapshot env requestName locks =
        (.ok, some ⟨parent.size, si.snapshotID, si.creationTime, true⟩,
          [.checkSnapExists], locks)) ∧
    (∀ (quota : Int) (sid : SnapIdent) (ct : Int),
      env.checkSnap = .ok none → env.creds = true → env.subVolInfoQuota = .ok quota →
      env.reserve = .ok sid → env.doSnapCreationTime = .ok ct →
      createSnapshot env requestName locks =
        (.ok, some ⟨quota, sid.snapshotID, ct, true⟩,
          [.checkSnapExists, .getSubVolumeInfo, .reserveSnap, .doSnapshotStep], locks)) := by
  constructor
  · intro si hsnap
    simp [createSnapshot, tryAcquire, hval, hfree, hpar, hsnap, release]
  · intro quota sid ct hsnap hcr hq hres hdo
    simp [createSnapshot, tryAcquire, hval, hfree, hpar, hsnap, hcr, hq, hres, hdo, release]

/-- Witness for C10: the replayed request answers with the parent-options
size (1 GiB) while the fresh creation answers with the measured quota
(2 GiB); both are ready to use. -/
theorem createSnapshot_size_witness :
    createSnapshot envSnapReplay "snap-1" [] =
      (.ok, some ⟨1073741824, "snap-handle-1", 17, true⟩, [.checkSnapExists], []) ∧
    createSnapshot envSnapFresh "snap-1" [] =
      (.ok, some ⟨2147483648, "snap-handle-1", 17, true⟩,
        [.checkSnapExists, .getSubVolumeInfo, .reserveSnap, .doSnapshotStep], []) :=
  ⟨(createSnapshot_size_sources envSnapReplay "snap-1" [] _ rfl (by simp) rfl).1 _ rfl,
    (createSnapshot_size_sources envSnapFresh "snap-1" [] _ rfl (by simp) rfl).2
      2147483648 _ 17 rfl rfl rfl rfl rfl⟩

/-- C1 (counterexample to the claim as stated): a DeleteVolume whose
identifier lookup fails with ErrInvalidVolID — an error other than
PoolNotFound, KeyNotFound and VolumeNotFound — while the legacy metadata
store is configured and holds no entry returns success, not an internal
failure. -/
theorem deleteVolume_invalidVolID_not_internal :
    envDeleteLegacy.lookup.err = some CephErr.invalidVolID ∧
    (deleteVolume envDeleteLegacy "vol-legacy" []).1 = GrpcCode.ok ∧
    (deleteVolume envDeleteLegacy "vol-legacy" []).1 ≠ GrpcCode.internal := by
  refine ⟨rfl, ?_, ?_⟩ <;> decide

/-- C1 (amended): DeleteVolume and DeleteSnapshot classify a failed
identifier lookup as follows. PoolNotFound and KeyNotFound are idempotent
successes touching neither the backing object nor the journal (empty trace);
VolumeNotFound (resp. SnapNotFound) runs the journal unreserve to finish
garbage collection and then succeeds; every other error is an internal
failure — except an invalid-identifier error in DeleteVolume when the legacy
(1.0.0) metadata store is configured, which is delegated to the deprecated
deletion path and in particular succeeds when the legacy metadata is absent. -/
theorem delete_lookup_failure_classification
    (venv : DeleteVolEnv) (senv : DeleteSnapEnv) (volID snapID : String)
    (locks slocks : List String)
    (hvv : venv.validate = true) (hsv : senv.validate = true) (hsc : senv.creds = true)
    (hvf : volID ∉ locks) (hsf : snapID ∉ slocks) (hsz : snapID ≠ "") :
    (venv.lookup.err = some .poolNotFound →
      deleteVolume venv volID locks = (.ok, [], locks)) ∧
    (venv.lookup.err = some .keyNotFound →
      deleteVolume venv volID locks = (.ok, [], locks)) ∧
    (venv.lookup.err = some .volumeNotFound → venv.lookup.requestName ∉ locks →
      venv.lookup.requestName ≠ volID → venv.unreserveOk = true →
      deleteVolume venv volID locks = (.ok, [.undoVolReservation], locks)) ∧
    (∀ e : CephErr, venv.lookup.err = some e → e ≠ .poolNotFound → e ≠ .keyNotFound →
      e ≠ .volumeNotFound → e ≠ .invalidVolID →
      (deleteVolume venv volID locks).1 = .internal) ∧
    (venv.lookup.err = some .invalidVolID → venv.metadataStore = false →
      (deleteVolume venv volID locks).1 = .internal) ∧
    (venv.lookup.err = some .invalidVolID → venv.metadataStore = true →
      venv.deprecated.cacheOtherErr = false → venv.deprecated.cacheFound = false →
      (deleteVolume venv volID locks).1 = .ok) ∧
    (senv.lookup.err = some .poolNotFound →
      deleteSnapshot senv snapID slocks = (.ok, [], slocks)) ∧
    (senv.lookup.err = some .keyNotFound →
      deleteSnapshot senv snapID slocks = (.ok, [], slocks)) ∧
    (senv.lookup.err = some .snapNotFound → senv.unreserveOk = true →
      deleteSnapshot senv snapID slocks = (.ok, [.undoSnapReservation], slocks)) ∧
    (∀ e : CephErr, senv.lookup.err = some e → e ≠ .poolNotFound → e ≠ .keyNotFound →
      e ≠ .snapNotFound → (deleteSnapshot senv snapID slocks).1 = .internal) := by
  refine ⟨?_, ?_, ?_, ?_, ?_, ?_, ?_, ?_, ?_, ?_⟩
  · intro h
    simp [deleteVolume, tryAcquire, hvv, hvf, h, release]
  · intro h
    simp [deleteVolume, tryAcquire, hvv, hvf, h, release]
  · intro h hrf hrv hu
    have hr : venv.lookup.requestName ∉ volID :: locks := by simp [hrv, hrf]
    simp [deleteVolume, tryAcquire, hvv, hvf, h, hu, hr, release, List.erase_cons,
      hrv.symm]
  · intro e he h1 h2 h3 h4
    cases e <;> simp_all [deleteVolume, tryAcquire, hvv, hvf, release]
  · intro h hm
    simp [deleteVolume, tryAcquire, hvv, hvf, h, hm, release]
  · intro h hm h1 h2
    simp [deleteVolume, deleteVolumeDeprecated, tryAcquire, hvv, hvf, h, hm, h1, h2, release]
  · intro h
    simp [deleteSnapshot, tryAcquire, hsv, hsc, hsz, hsf, h, release]
  · intro h
    simp [deleteSnapshot, tryAcquire, hsv, hsc, hsz, hsf, h, release]
  · intro h hu
    simp [deleteSnapshot, tryAcquire, hsv, hsc, hsz, hsf, h, hu, release]
  · intro e he h1 h2 h3
    cases e <;> simp_all [deleteSnapshot, tryAcquire, hsv, hsc, hsz, hsf, release]

/-- Witness for the amended C1: the VolumeNotFound branch finishes garbage
collection and succeeds, and the SnapNotFound branch does the same for
snapshots. -/
theorem delete_lookup_failure_witness :
    deleteVolume envDeleteGone "vol-gone" [] = (.ok, [.undoVolReservation], []) ∧
    deleteSnapshot envDeleteSnapGone "snap-gone" [] = (.ok, [.undoSnapReservation], []) :=
  ⟨(delete_lookup_failure_classification envDeleteGone envDeleteSnapGone "vol-gone"
      "snap-gone" [] [] rfl rfl rfl (by simp) (by simp) (by simp)).2.2.1
        rfl (by simp) (by decide) rfl,
    (delete_lookup_failure_classification envDeleteGone envDeleteSnapGone "vol-gone"
      "snap-gone" [] [] rfl rfl rfl (by simp) (by simp) (by simp)).2.2.2.2.2.2.2.2.1
        rfl rfl⟩

/-- C5: in createCloneFromSubvolume, when the clone step fails after the
temporary snapshot was created and protected, the deferred rollback runs only
the snapshot deletion — it neither unprotects the still-protected temporary
snapshot first nor purges the partial clone volume, because the clone step's
error is assigned to protectErr instead of cloneErr. -/
theorem cloneFromSubvolume_rollback_gap :
    createCloneFromSubvolume envCloneStepFails =
      (some CephErr.other,
        [.createSnapshot, .protectSnapshot, .cloneSnapshot, .cleanupDeleteSnapshot]) ∧
    CloneAct.cleanupUnprotect ∉ (createCloneFromSubvolume envCloneStepFails).2 ∧
    CloneAct.cleanupPurgeVolume ∉ (createCloneFromSubvolume envCloneStepFails).2 := by
  refine ⟨?_, ?_, ?_⟩ <;> decide

/-- C7: DeleteVolume's success path acquires the request-name lock but its
deferred release names string(volID) instead, so the request-name key is
still held when the operation returns success. -/
theorem deleteVolume_leaks_requestName_lock :
    (deleteVolume envDeleteOk "vol-1" []).1 = GrpcCode.ok ∧
    (deleteVolume envDeleteOk "vol-1" []).2.2 = ["pvc-1"] := by
  refine ⟨?_, ?_⟩ <;> decide

end CephCSI
